import Mathlib

/-
Verification of the transaction / query layer of `msacco_api`
(`msacco_api/database/database.py`, class `CBSDatabase`).

The embedding models one database session: the mutable attributes of a
`CBSDatabase` instance (`_conn`, `transaction_writes`,
`auto_commit_on_many_writes`, `value_cache`) together with the pieces of
`frappe.local` / `frappe.flags` state that the methods under scrutiny read and
write (`rollback_observers`, `before_commit`, `enqueue_after_commit`,
`realtime_log`).  The physical backend (cursor) and the other external
collaborators (redis cache, realtime emitter, background-job queues, commit
hooks, rollback observers) are modelled by append-only logs recording the
calls the session issues to them, so that "nothing was executed" and
"each job fired exactly once" are provable statements about the final state.
Statements raised as Python exceptions are modelled with `Except`, the error
carrying the session state at the moment of the raise.
-/

deriving instance DecidableEq for Except

/-- Scalar values moved between the session and the backend. -/
inductive Value where
  | vnull
  | vstr (s : String)
  | vint (n : Int)
deriving DecidableEq, Repr

/-- The `values` argument of `CBSDatabase.sql`: absent (`EmptyQueryValues`),
a single non-container value (wrapped into a 1-tuple by `sql`), or a
tuple/list of values. -/
inductive QueryValues where
  | qempty
  | qone (v : Value)
  | qlist (vs : List Value)
deriving DecidableEq, Repr

/-- Normalisation performed by `sql` before executing:
`EmptyQueryValues` becomes `None`, a bare value becomes `(value,)`. -/
def normValues : QueryValues → Option (List Value)
  | .qempty => none
  | .qone v => some [v]
  | .qlist vs => some vs

/-- A rollback observer registered in `frappe.local.rollback_observers`.
`has_on_rollback` models `hasattr(obj, "on_rollback")`. -/
structure Observer where
  id : Nat
  has_on_rollback : Bool
deriving DecidableEq, Repr

/-- A commit hook registered via `add_before_commit` in
`frappe.local.before_commit`.  `fails` records whether calling it raises. -/
structure Hook where
  id : Nat
  fails : Bool
deriving DecidableEq, Repr

/-- Errors raised by the transaction layer.  `outOfFuel` is an artefact of
the bounded-recursion embedding of the mutually recursive `sql`/`commit`
pair; it is never reached at the fuel the top-level entry points use. -/
inductive DBError where
  | implicitCommit
  | tooManyWrites
  | hookFailed (id : Nat)
  | outOfFuel
deriving DecidableEq, Repr

/-- The value returned by `CBSDatabase.sql`: the query text when
`run=False`, otherwise the (reshaped) rows fetched from the backend.  The
backend is external, so executed statements yield the empty row list here;
the statement itself is recorded in the session's `executed` log. -/
inductive SqlRes where
  | text (q : String)
  | rows (rs : List (List Value))
deriving DecidableEq, Repr

/-- Field selection passed to `get_value` / `get_values`: either a plain
string (possibly `"*"`) or a list of column names. -/
inductive FieldSpec where
  | fstr (s : String)
  | flist (fs : List String)
deriving DecidableEq, BEq, Repr

/-- The duck-typed `filters` argument of `get_values`: `None`, a document
name (plain string), a sequence of primary-key values (entries may be
null/empty), or a mapping of column to filter value. -/
inductive Filters where
  | fnone
  | fstr (s : String)
  | flist (vs : List (Option String))
  | fmap (m : List (String × String))
deriving DecidableEq, Repr

/-- Result of a lookup as stored in Python's `out` variable of
`get_values`: `None`, a row list, the empty dict returned by
`_get_value_for_many_names` on an empty key set, or the query text when
`run=False`. -/
inductive LookupOut where
  | lnone
  | rows (rs : List (List Value))
  | emptyDict
  | text (q : String)
deriving DecidableEq, Repr

/-- Python truthiness of a `LookupOut` (`if not result: ...`). -/
def lookupFalsy : LookupOut → Bool
  | .lnone => true
  | .rows rs => rs.isEmpty
  | .emptyDict => true
  | .text q => q.isEmpty

/-- Errors arising from the query-engine collaborator, plus the Python
`IndexError`/artefact cases surfaced by `get_value`'s row unwrapping. -/
inductive LookupErr where
  | missingColumn
  | missingTable
  | indexError
  | other (n : Nat)
deriving DecidableEq, Repr

/-- Key of the point-lookup cache: `(doctype, filters-string, fieldname)`. -/
abbrev CacheKey := String × String × FieldSpec

/-- One request sent to the query-engine collaborator
(`frappe.cbs_qb.engine.get_query(...).run(...)`), combining the
query-construction and run arguments of the two call sites in
`database.py`. -/
structure EngineQuery where
  table : String
  filters : Filters
  fields : FieldSpec
  orderby : Option String
  for_update : Bool
  distinct : Bool
  limit : Option Nat
  as_dict : Bool
  pluck : Bool
  run : Bool
  update : Option Nat
deriving DecidableEq, Repr

/-- The state of one session: the `CBSDatabase` instance attributes, the
`frappe.local`/`frappe.flags` state the methods use, and append-only logs
of the calls issued to external collaborators. -/
structure Session where
  /-- Whether `self._conn` is set (a connection is open). -/
  conn : Bool
  /-- Models `frappe.flags.read_only`. -/
  flags_read_only : Bool
  /-- Models `self.transaction_writes`. -/
  transaction_writes : Nat
  /-- Models `self.auto_commit_on_many_writes`. -/
  auto_commit_on_many_writes : Bool
  /-- Models `self.value_cache`. -/
  value_cache : List (CacheKey × LookupOut)
  /-- Models `frappe.local.rollback_observers`. -/
  rollback_observers : List Observer
  /-- Models `frappe.local.before_commit`. -/
  before_commit : List Hook
  /-- Models `frappe.flags.enqueue_after_commit` (job ids). -/
  enqueue_after_commit : List Nat
  /-- Models `frappe.local.realtime_log`. -/
  realtime_log : List Nat
  /-- Log of statements sent to the backend cursor (`self._cursor.execute`). -/
  executed : List (String × Option (List Value))
  /-- Log of commit hooks invoked (`frappe.call(method, ...)`). -/
  hook_calls : List Hook
  /-- Log of observers whose `on_rollback()` was called. -/
  notified : List Observer
  /-- Log of realtime events emitted via redis. -/
  emitted : List Nat
  /-- Log of background jobs enqueued after commit. -/
  jobs_fired : List Nat
deriving DecidableEq, Repr

/-- The write ceiling `MAX_WRITES_PER_TRANSACTION = 200_000`. -/
def MAX_WRITES_PER_TRANSACTION : Nat := 200000

/-- Python `str.strip()`: drop leading and trailing whitespace. -/
def pyStrip (q : String) : String :=
  String.mk (((q.data.dropWhile Char.isWhitespace).reverse.dropWhile
    Char.isWhitespace).reverse)

/-- Lowercasing (`str.lower()` on the ASCII identifiers involved here). -/
def lowerStr (q : String) : String :=
  String.mk (q.data.map Char.toLower)

/-- First whitespace-separated word of a query, after stripping. -/
def firstWord (q : String) : String :=
  String.mk ((pyStrip q).data.takeWhile (fun c => !c.isWhitespace))

/-- Modelled from the spec: `is_query_type` is imported from
`msacco_api.database.utils`, a module of this repository whose source is not
available here.  The spec classifies a statement by its leading keyword
("Statements classified as start/alter/drop/create/begin/truncate", "queries
classified as commit/rollback"), so a query is of a given type exactly when
its first whitespace-separated word, lowercased, is that type. -/
def is_query_type (q : String) (types : List String) : Bool :=
  types.contains (lowerStr (firstWord q))

/-- Statement types rejected mid-transaction by `check_implicit_commit`. -/
def ddlTypes : List String := ["start", "alter", "drop", "create", "begin", "truncate"]

/-- Statement types that end the transaction and reset the write counter. -/
def txEndTypes : List String := ["commit", "rollback"]

/-- Write classification of `check_transaction_status`:
`query[:6].lower() in ("update", "insert", "delete")`. -/
def isWriteQuery (q : String) : Bool :=
  ["update", "insert", "delete"].contains (lowerStr (String.mk (q.data.take 6)))

/-- Character list of the pattern replaced by `IFNULL_PATTERN.sub`. -/
def ifnullChars : List Char := "ifnull(".toList

/-- Character list of the replacement used by `IFNULL_PATTERN.sub`. -/
def coalesceChars : List Char := "coalesce(".toList

/-- Case-insensitive replacement of every occurrence of `ifnull(` by
`coalesce(`, as done by `IFNULL_PATTERN.sub("coalesce(", query)`. -/
def subIfnullAux : List Char → List Char
  | [] => []
  | c :: cs =>
    if ((c :: cs).take 7).map Char.toLower = ifnullChars then
      match cs with
      | _ :: _ :: _ :: _ :: _ :: _ :: rest => coalesceChars ++ subIfnullAux rest
      | short => c :: subIfnullAux short
    else
      c :: subIfnullAux cs

/-- String form of the `ifnull( -> coalesce(` rewrite. -/
def subIfnull (q : String) : String :=
  String.mk (subIfnullAux q.data)

/-- Python truthiness of an optional string (`None` and `""` are falsy);
used both for `filter(None, names)` entries and for `if save_point:`. -/
def optStrTruthy : Option String → Bool
  | none => false
  | some t => !t.isEmpty

/-- Order-preserving first-occurrence deduplication, as performed by
`dict.fromkeys(frappe.local.rollback_observers)`. -/
def pyDedupAux : Nat → List Observer → List Observer
  | 0, _ => []
  | _, [] => []
  | n + 1, x :: xs => x :: pyDedupAux n (xs.filter (fun y => y != x))

/-- Entry point of the deduplication; the fuel `l.length` always suffices
because `filter` never lengthens a list. -/
def pyDedup (l : List Observer) : List Observer := pyDedupAux l.length l

/-- The guard condition of `check_implicit_commit`:
`self.transaction_writes and query and is_query_type(query, (...DDL...))`. -/
def implicitCommitCond (s : Session) (query : String) : Bool :=
  (s.transaction_writes != 0) && (!query.isEmpty) && is_query_type query ddlTypes

/-- Embeds `CBSDatabase.check_implicit_commit`: raises `ImplicitCommitError`
when a DDL-like statement arrives while writes are pending. -/
def check_implicit_commit (s : Session) (query : String) : Except (DBError × Session) Unit :=
  if implicitCommitCond s query then .error (.implicitCommit, s) else .ok ()

/-- Outcome of `check_transaction_status`.  `needAutoCommit` is the state in
which `self.commit()` must be invoked by the caller (`sql`); the other
constructors carry the session state after the check. -/
inductive CTSResult where
  | implicitCommitErr (s : Session)
  | tooManyWritesErr (s : Session)
  | needAutoCommit (s : Session)
  | ctsOk (s : Session)
deriving DecidableEq, Repr

/-- Embeds `CBSDatabase.check_transaction_status`: rejects implicit-commit
statements, resets the counter on commit/rollback statements, counts write
statements, and on exceeding `MAX_WRITES_PER_TRANSACTION` either requests an
automatic commit or raises `TooManyWritesError` — without issuing any
rollback. -/
def check_transaction_status (s : Session) (query : String) : CTSResult :=
  match check_implicit_commit s query with
  | .error _ => .implicitCommitErr s
  | .ok _ =>
    let s := if (!query.isEmpty) && is_query_type query txEndTypes then
        { s with transaction_writes := 0 }
      else s
    if isWriteQuery query then
      let s := { s with transaction_writes := s.transaction_writes + 1 }
      if MAX_WRITES_PER_TRANSACTION < s.transaction_writes then
        if s.auto_commit_on_many_writes then .needAutoCommit s
        else .tooManyWritesErr s
      else .ctsOk s
    else .ctsOk s

/-- Embeds `CBSDatabase.connect`: opens the physical connection and resets
`frappe.local.rollback_observers = []`. -/
def connectS (s : Session) : Session :=
  { s with conn := true, rollback_observers := [] }

/-- The implicit `if not self._conn: self.connect()` at the start of
statement execution in `sql`. -/
def connectIfNeeded (s : Session) : Session :=
  if s.conn then s else connectS s

/-- Embeds `CBSDatabase.flush_realtime_log`: emits every queued realtime
event via redis and clears `frappe.local.realtime_log`. -/
def flush_realtime_log (s : Session) : Session :=
  { s with emitted := s.emitted ++ s.realtime_log, realtime_log := [] }

/-- Embeds the module-level `enqueue_jobs_after_commit`: when
`frappe.flags.enqueue_after_commit` is non-empty, enqueue every job and
clear the queue. -/
def enqueue_jobs_after_commit (s : Session) : Session :=
  if !s.enqueue_after_commit.isEmpty then
    { s with jobs_fired := s.jobs_fired ++ s.enqueue_after_commit,
             enqueue_after_commit := [] }
  else s

/-- The hook-draining loop at the top of `commit`:
`for method in frappe.local.before_commit: frappe.call(...)`.  Each hook is
invoked (logged) in order; a raising hook propagates its failure. -/
def runHooks (s : Session) : List Hook → Except (DBError × Session) Session
  | [] => .ok s
  | h :: hs =>
    let s' := { s with hook_calls := s.hook_calls ++ [h] }
    if h.fails then .error (.hookFailed h.id, s') else runHooks s' hs

/-- The query text issued by `begin`:
`f"START TRANSACTION {mode}"` with `mode = "READ ONLY"` when
`read_only or frappe.flags.read_only`. -/
def startTxQuery (read_only flags_read_only : Bool) : String :=
  if read_only || flags_read_only then "START TRANSACTION READ ONLY"
  else "START TRANSACTION "

/-- The stripped form of `startTxQuery` as it reaches the backend. -/
def startTxStr (read_only : Bool) : String :=
  if read_only then "START TRANSACTION READ ONLY" else "START TRANSACTION"

/-- The tail of `sql` after transaction validation, parameterised by the
commit routine: commit first when `auto_commit` is set, execute the
statement on the cursor (recorded in the `executed` log), commit again when
`auto_commit` is set, and fetch the result. -/
def sqlExecTail (doCommit : Session → Except (DBError × Session) Session)
    (s : Session) (query : String) (values : QueryValues) (auto_commit : Bool) :
    Except (DBError × Session) (SqlRes × Session) :=
  match (if auto_commit then doCommit s else .ok s) with
  | .error e => .error e
  | .ok s2 =>
    match (if auto_commit then
        doCommit { s2 with executed := s2.executed ++ [(query, normValues values)] }
      else .ok { s2 with executed := s2.executed ++ [(query, normValues values)] }) with
    | .error e => .error e
    | .ok s4 => .ok (.rows [], s4)

mutual

/-- Embeds `CBSDatabase.sql` (state-relevant behaviour).  Steps, in source
order: return the query text unexecuted when `run=False`; strip the query
and rewrite `ifnull(` to `coalesce(`; connect if no connection is open;
run `check_transaction_status` (which invokes `self.commit()` when the
write ceiling is exceeded with `auto_commit_on_many_writes` set); then
commit first when `auto_commit` is set, execute the statement on the cursor
(recorded in the `executed` log), commit again when `auto_commit` is set,
and fetch the result (the backend rows are external, hence `.rows []`).
`fuel` bounds the `sql`/`commit` mutual recursion; the top-level entry
points give it enough fuel for every reachable path. -/
def sqlFuel : Nat → Session → String → QueryValues → Bool → Bool →
    Except (DBError × Session) (SqlRes × Session)
  | 0, s, _, _, _, _ => .error (.outOfFuel, s)
  | fuel + 1, s, query0, values, run, auto_commit =>
    if run = false then .ok (.text query0, s)
    else
      match check_transaction_status (connectIfNeeded s) (subIfnull (pyStrip query0)) with
      | .implicitCommitErr s2 => .error (.implicitCommit, s2)
      | .tooManyWritesErr s2 => .error (.tooManyWrites, s2)
      | .needAutoCommit s2 =>
        match commitFuel fuel s2 with
        | .error e => .error e
        | .ok s3 => sqlExecTail (commitFuel fuel) s3 (subIfnull (pyStrip query0)) values auto_commit
      | .ctsOk s2 => sqlExecTail (commitFuel fuel) s2 (subIfnull (pyStrip query0)) values auto_commit

/-- Embeds `CBSDatabase.commit`: run every registered commit hook in order,
issue the physical `commit`, immediately `begin` a new transaction, clear
`frappe.local.rollback_observers`, flush the realtime log, and enqueue the
deferred jobs. -/
def commitFuel : Nat → Session → Except (DBError × Session) Session
  | 0, s => .error (.outOfFuel, s)
  | fuel + 1, s =>
    match runHooks s s.before_commit with
    | .error e => .error e
    | .ok s1 =>
      match sqlFuel fuel s1 "commit" .qempty true false with
      | .error e => .error e
      | .ok (_, s2) =>
        match sqlFuel fuel s2 (startTxQuery false s2.flags_read_only) .qempty true false with
        | .error e => .error e
        | .ok (_, s3) =>
          .ok (enqueue_jobs_after_commit
            (flush_realtime_log { s3 with rollback_observers := [] }))

end

/-- Top-level `CBSDatabase.sql`.  The fuel `8` covers every reachable
nesting of `sql` and `commit` (the deepest real chain is
write-over-ceiling `sql` -> `commit` -> inner `sql`). -/
def sql (s : Session) (query : String) (values : QueryValues)
    (run auto_commit : Bool) : Except (DBError × Session) (SqlRes × Session) :=
  sqlFuel 8 s query values run auto_commit

/-- Top-level `CBSDatabase.commit` (the same function `sql` invokes when the
write ceiling is exceeded with `auto_commit_on_many_writes` set). -/
def commit (s : Session) : Except (DBError × Session) Session :=
  commitFuel 7 s

/-- Embeds `CBSDatabase.begin`: `self.sql(f"START TRANSACTION {mode}")`. -/
def beginTx (s : Session) (read_only : Bool) : Except (DBError × Session) Session :=
  Except.map (fun r => r.2)
    (sql s (startTxQuery read_only s.flags_read_only) .qempty true false)

/-- Embeds `CBSDatabase.savepoint`: `self.sql(f"savepoint {save_point}")`. -/
def savepoint (s : Session) (save_point : String) : Except (DBError × Session) Session :=
  Except.map (fun r => r.2) (sql s ("savepoint " ++ save_point) .qempty true false)

/-- Embeds `CBSDatabase.release_savepoint`. -/
def release_savepoint (s : Session) (save_point : String) : Except (DBError × Session) Session :=
  Except.map (fun r => r.2) (sql s ("release savepoint " ++ save_point) .qempty true false)

/-- Embeds `CBSDatabase.rollback(save_point=None)`: with a truthy savepoint
name, only `rollback to savepoint {name}` is issued; otherwise the whole
transaction is rolled back, a new transaction begins, every observer in
`dict.fromkeys(frappe.local.rollback_observers)` exposing `on_rollback` is
notified, and the observer list is cleared. -/
def rollback (s : Session) (save_point : Option String) : Except (DBError × Session) Session :=
  if optStrTruthy save_point then
    Except.map (fun r => r.2)
      (sql s ("rollback to savepoint " ++ save_point.getD "") .qempty true false)
  else
    match sql s "rollback" .qempty true false with
    | .error e => .error e
    | .ok (_, s1) =>
      match beginTx s1 false with
      | .error e => .error e
      | .ok s2 =>
        .ok { s2 with
          notified := s2.notified ++
            (pyDedup s2.rollback_observers).filter (fun o => o.has_on_rollback),
          rollback_observers := [] }

/-- The engine request built by `_get_value_for_many_names`:
`get_query(doctype, fields=field, filters=names, order_by=order_by, pluck=...,
distinct=..., limit=...).run(debug=..., run=..., as_dict=...)`. -/
def manyNamesQuery (doctype : String) (names : List (Option String)) (field : FieldSpec)
    (order_by : Option String) (run pluck distinct : Bool) (limit : Option Nat)
    (as_dict : Bool) : EngineQuery :=
  { table := doctype, filters := .flist names, fields := field, orderby := order_by,
    for_update := false, distinct := distinct, limit := limit, as_dict := as_dict,
    pluck := pluck, run := run, update := none }

/-- Embeds `CBSDatabase._get_value_for_many_names`: falsy names are dropped
(`filter(None, names)`); with no surviving name the call returns `{}`
without touching the engine, otherwise one engine query is issued over the
surviving names.  The second component lists the engine requests issued. -/
def _get_value_for_many_names (engine : EngineQuery → Except LookupErr LookupOut)
    (doctype : String) (names : List (Option String)) (field : FieldSpec)
    (order_by : Option String) (run pluck distinct : Bool) (limit : Option Nat)
    (as_dict : Bool) : Except LookupErr LookupOut × List EngineQuery :=
  let names2 := names.filter optStrTruthy
  if names2.isEmpty then (.ok .emptyDict, [])
  else
    (engine (manyNamesQuery doctype names2 field order_by run pluck distinct limit as_dict),
     [manyNamesQuery doctype names2 field order_by run pluck distinct limit as_dict])

/-- The engine request built by `_get_values_from_table`; `as_dict` is
forced when `fields` is the plain string `"*"`. -/
def tableQuery (doctype : String) (filters : Filters) (fields : FieldSpec)
    (order_by : Option String) (for_update distinct : Bool) (limit : Option Nat)
    (as_dict run pluck : Bool) (update : Option Nat) : EngineQuery :=
  { table := doctype, filters := filters, fields := fields, orderby := order_by,
    for_update := for_update, distinct := distinct, limit := limit,
    as_dict := if fields = FieldSpec.fstr "*" then true else as_dict,
    pluck := pluck, run := run, update := update }

/-- Embeds `CBSDatabase._get_values_from_table`: one engine query. -/
def _get_values_from_table (engine : EngineQuery → Except LookupErr LookupOut)
    (fields : FieldSpec) (filters : Filters) (doctype : String) (as_dict : Bool)
    (order_by : Option String) (update : Option Nat) (for_update run pluck distinct : Bool)
    (limit : Option Nat) : Except LookupErr LookupOut × List EngineQuery :=
  (engine (tableQuery doctype filters fields order_by for_update distinct limit
      as_dict run pluck update),
   [tableQuery doctype filters fields order_by for_update distinct limit
      as_dict run pluck update])

/-- Assignment into the point-lookup cache (Python dict assignment:
replace an existing key, otherwise add the entry). -/
def cacheStore (c : List (CacheKey × LookupOut)) (k : CacheKey) (v : LookupOut) :
    List (CacheKey × LookupOut) :=
  if (c.lookup k).isSome then
    c.map (fun p => if p.1 = k then (k, v) else p)
  else c ++ [(k, v)]

/-- The `if cache and isinstance(filters, str): self.value_cache[...] = out`
store at the end of `get_values`. -/
def storeCache (s : Session) (doctype : String) (filters : Filters)
    (fieldname : FieldSpec) (cache : Bool) (out : LookupOut) : Session :=
  match filters with
  | .fstr fs =>
    if cache then
      { s with value_cache := cacheStore s.value_cache (doctype, fs, fieldname) out }
    else s
  | _ => s

/-- The `if distinct: order_by = None` step of `get_values`. -/
def gvOrderBy (distinct : Bool) (order_by : Option String) : Option String :=
  if distinct then none else order_by

/-- The field normalisation of `get_values`: a plain string other than
`"*"` is wrapped into a one-element list. -/
def gvFields (fieldname : FieldSpec) : FieldSpec :=
  match fieldname with
  | .fstr f => if f = "*" then FieldSpec.fstr "*" else FieldSpec.flist [f]
  | other => other

/-- The `order_by` mapping of `get_values`' table branch: a truthy
`KEEP_DEFAULT_ORDERING` sentinel becomes `modified`. -/
def gvOrderBy2 (order_by : Option String) : Option String :=
  match order_by with
  | none => none
  | some ob =>
    if ob.isEmpty then some ob
    else if ob = "KEEP_DEFAULT_ORDERING" then some "modified" else some ob

/-- Embeds `CBSDatabase.get_values`.  The engine collaborator
(`frappe.cbs_qb.engine`, an external module) is passed as a function; the
third component of a successful result lists the engine requests issued, so
"the backend was not touched" is the statement that this list is empty.
Unknown-column/table errors are swallowed into a `None` result when `ignore`
is set, as in the source's `except` clause. -/
def get_values (engine : EngineQuery → Except LookupErr LookupOut) (s : Session)
    (doctype : String) (filters : Filters) (fieldname : FieldSpec)
    (ignore as_dict : Bool) (order_by : Option String) (update : Option Nat)
    (cache for_update run pluck distinct : Bool) (limit : Option Nat) :
    Except LookupErr (LookupOut × Session × List EngineQuery) :=
  match (match filters with
    | .fstr fs => if cache then s.value_cache.lookup (doctype, fs, fieldname) else none
    | _ => none) with
  | some v => .ok (v, s, [])
  | none =>
    match filters with
    | .flist names =>
      match _get_value_for_many_names engine doctype names fieldname
          (gvOrderBy distinct order_by) run pluck distinct limit as_dict with
      | (.error e, _) => .error e
      | (.ok out, calls) => .ok (out, storeCache s doctype filters fieldname cache out, calls)
    | _ =>
      match _get_values_from_table engine (gvFields fieldname) filters doctype as_dict
          (gvOrderBy2 (gvOrderBy distinct order_by)) update for_update run pluck
          distinct limit with
      | (.ok out, calls) => .ok (out, storeCache s doctype filters fieldname cache out, calls)
      | (.error e, calls) =>
        if ignore && (e == .missingColumn || e == .missingTable) then
          .ok (.lnone, storeCache s doctype filters fieldname cache .lnone, calls)
        else .error e

/-- The shapes `get_value` can return: the absence signal `None`, a bare
scalar, a row container, or (when `run=False`) the raw `get_values` result
(the query text). -/
inductive GetValueOut where
  | gnone
  | gscalar (v : Value)
  | grow (r : List Value)
  | raw (o : LookupOut)
deriving DecidableEq, Repr

/-- Embeds `CBSDatabase.get_value`: delegates to `get_values` with
`limit=1`; returns the raw result when `run=False`; `None` on a falsy
result; the bare scalar for a single-column row when `as_dict` was not
requested; otherwise the row container.  A zero-column row (impossible for
real backends) or a truthy non-row result maps to Python's `IndexError`
artefact. -/
def get_value (engine : EngineQuery → Except LookupErr LookupOut) (s : Session)
    (doctype : String) (filters : Filters) (fieldname : FieldSpec)
    (ignore as_dict : Bool) (order_by : Option String)
    (cache for_update run pluck distinct : Bool) :
    Except LookupErr (GetValueOut × Session × List EngineQuery) :=
  match get_values engine s doctype filters fieldname ignore as_dict order_by none
      cache for_update run pluck distinct (some 1) with
  | .error e => .error e
  | .ok (result, s2, calls) =>
    if run = false then .ok (.raw result, s2, calls)
    else if lookupFalsy result then .ok (.gnone, s2, calls)
    else
      match result with
      | .rows (row :: _) =>
        if 1 < row.length || as_dict then .ok (.grow row, s2, calls)
        else
          match row with
          | [v] => .ok (.gscalar v, s2, calls)
          | _ => .error .indexError
      | _ => .error .indexError

theorem connectIfNeeded_eq (s : Session) (h : s.conn = true) : connectIfNeeded s = s := by
  simp [connectIfNeeded, h]

theorem connectIfNeeded_writes (s : Session) :
    (connectIfNeeded s).transaction_writes = s.transaction_writes := by
  unfold connectIfNeeded connectS
  split <;> rfl

theorem cts_nonwrite (s : Session) (q : String) (hw : isWriteQuery q = false) :
    check_transaction_status s q =
      if implicitCommitCond s q then .implicitCommitErr s
      else .ctsOk (if (!q.isEmpty) && is_query_type q txEndTypes then
          { s with transaction_writes := 0 } else s) := by
  unfold check_transaction_status check_implicit_commit
  by_cases hic : implicitCommitCond s q
  · simp [hic]
  · simp [hic, hw]

theorem cts_write (s : Session) (q : String)
    (hddl : is_query_type q ddlTypes = false)
    (htx : is_query_type q txEndTypes = false)
    (hw : isWriteQuery q = true) :
    check_transaction_status s q =
      if MAX_WRITES_PER_TRANSACTION < s.transaction_writes + 1 then
        if s.auto_commit_on_many_writes then
          .needAutoCommit { s with transaction_writes := s.transaction_writes + 1 }
        else .tooManyWritesErr { s with transaction_writes := s.transaction_writes + 1 }
      else .ctsOk { s with transaction_writes := s.transaction_writes + 1 } := by
  unfold check_transaction_status check_implicit_commit
  simp [implicitCommitCond, hddl, htx, hw]

theorem sqlExecTail_noauto (dc : Session → Except (DBError × Session) Session)
    (s : Session) (q : String) (v : QueryValues) :
    sqlExecTail dc s q v false =
      .ok (.rows [], { s with executed := s.executed ++ [(q, normValues v)] }) := by
  unfold sqlExecTail
  simp

theorem sqlFuel_nonwrite (f : Nat) (hf : f ≠ 0) (s : Session) (q : String) (v : QueryValues)
    (hw : isWriteQuery (subIfnull (pyStrip q)) = false) :
    sqlFuel f s q v true false =
      if implicitCommitCond (connectIfNeeded s) (subIfnull (pyStrip q)) then
        .error (.implicitCommit, connectIfNeeded s)
      else
        .ok (.rows [], { connectIfNeeded s with
          transaction_writes :=
            if (!(subIfnull (pyStrip q)).isEmpty) &&
                is_query_type (subIfnull (pyStrip q)) txEndTypes then 0
            else (connectIfNeeded s).transaction_writes,
          executed := (connectIfNeeded s).executed ++ [(subIfnull (pyStrip q), normValues v)] }) := by
  cases f with
  | zero => exact absurd rfl hf
  | succ f' =>
    unfold sqlFuel
    rw [if_neg (by decide : ¬(true = false)), cts_nonwrite _ _ hw]
    by_cases hic : implicitCommitCond (connectIfNeeded s) (subIfnull (pyStrip q))
    · simp [hic]
    · simp only [hic, if_false, Bool.false_eq_true, ite_false, reduceIte]
      rw [sqlExecTail_noauto]
      split <;> rfl

theorem sqlFuel_write (f : Nat) (hf : f ≠ 0) (s : Session) (q : String) (v : QueryValues)
    (hddl : is_query_type (subIfnull (pyStrip q)) ddlTypes = false)
    (htx : is_query_type (subIfnull (pyStrip q)) txEndTypes = false)
    (hw : isWriteQuery (subIfnull (pyStrip q)) = true) :
    sqlFuel f s q v true false =
      if MAX_WRITES_PER_TRANSACTION < (connectIfNeeded s).transaction_writes + 1 then
        if (connectIfNeeded s).auto_commit_on_many_writes then
          match commitFuel (f - 1) { connectIfNeeded s with
              transaction_writes := (connectIfNeeded s).transaction_writes + 1 } with
          | .error e => .error e
          | .ok s3 => .ok (.rows [],
              { s3 with executed := s3.executed ++ [(subIfnull (pyStrip q), normValues v)] })
        else
          .error (.tooManyWrites, { connectIfNeeded s with
            transaction_writes := (connectIfNeeded s).transaction_writes + 1 })
      else
        .ok (.rows [], { connectIfNeeded s with
          transaction_writes := (connectIfNeeded s).transaction_writes + 1,
          executed := (connectIfNeeded s).executed ++ [(subIfnull (pyStrip q), normValues v)] }) := by
  cases f with
  | zero => exact absurd rfl hf
  | succ f' =>
    unfold sqlFuel
    rw [if_neg (by decide : ¬(true = false)), cts_write _ _ hddl htx hw]
    simp only [Nat.succ_sub_one]
    by_cases hceil : MAX_WRITES_PER_TRANSACTION < (connectIfNeeded s).transaction_writes + 1
    · simp only [hceil, if_true, reduceIte]
      by_cases hac : (connectIfNeeded s).auto_commit_on_many_writes
      · simp only [hac, if_true, reduceIte]
        split <;> simp [sqlExecTail_noauto]
      · simp [hac]
    · simp [hceil, sqlExecTail_noauto]

theorem runHooks_ok (hooks : List Hook) : ∀ s : Session, (∀ x ∈ hooks, x.fails = false) →
    runHooks s hooks = .ok { s with hook_calls := s.hook_calls ++ hooks } := by
  induction hooks with
  | nil => intro s _; simp [runHooks]
  | cons hk hs ih =>
    intro s hall
    have h1 : hk.fails = false := hall hk (by simp)
    unfold runHooks
    rw [if_neg (by simp [h1])]
    rw [ih _ (fun x hx => hall x (by simp [hx]))]
    simp [List.append_assoc]

theorem runHooks_fail (pre : List Hook) : ∀ (s : Session) (hk : Hook) (rest : List Hook),
    (∀ x ∈ pre, x.fails = false) → hk.fails = true →
    runHooks s (pre ++ hk :: rest) =
      .error (.hookFailed hk.id, { s with hook_calls := s.hook_calls ++ pre ++ [hk] }) := by
  induction pre with
  | nil =>
    intro s hk rest _ hh
    simp only [List.nil_append]
    unfold runHooks
    rw [if_pos (by simp [hh])]
    simp
  | cons p ps ih =>
    intro s hk rest hall hh
    have h1 : p.fails = false := hall p (by simp)
    simp only [List.cons_append]
    unfold runHooks
    rw [if_neg (by simp [h1])]
    rw [ih _ _ _ (fun x hx => hall x (by simp [hx])) hh]
    simp [List.append_assoc]

theorem icc_no_ddl (t : Session) (q : String) (h : is_query_type q ddlTypes = false) :
    implicitCommitCond t q = false := by
  simp [implicitCommitCond, h]

theorem icc_ddl (t : Session) (q : String) (hb : q.isEmpty = false)
    (hc : is_query_type q ddlTypes = true) :
    implicitCommitCond t q = (t.transaction_writes != 0) := by
  simp [implicitCommitCond, hb, hc]

theorem sql_commit_step (f : Nat) (hf : f ≠ 0) (s : Session) :
    sqlFuel f s "commit" .qempty true false =
      .ok (.rows [], { connectIfNeeded s with
        transaction_writes := 0,
        executed := (connectIfNeeded s).executed ++ [("commit", none)] }) := by
  rw [sqlFuel_nonwrite f hf s "commit" .qempty (by decide)]
  rw [show subIfnull (pyStrip "commit") = "commit" from by decide]
  rw [icc_no_ddl _ _ (by decide)]
  rw [show ((!("commit" : String).isEmpty) && is_query_type "commit" txEndTypes) = true from by decide]
  simp [normValues]

theorem sql_rollback_step (f : Nat) (hf : f ≠ 0) (s : Session) :
    sqlFuel f s "rollback" .qempty true false =
      .ok (.rows [], { connectIfNeeded s with
        transaction_writes := 0,
        executed := (connectIfNeeded s).executed ++ [("rollback", none)] }) := by
  rw [sqlFuel_nonwrite f hf s "rollback" .qempty (by decide)]
  rw [show subIfnull (pyStrip "rollback") = "rollback" from by decide]
  rw [icc_no_ddl _ _ (by decide)]
  rw [show ((!("rollback" : String).isEmpty) && is_query_type "rollback" txEndTypes) = true from by decide]
  simp [normValues]

theorem sql_startTx (f : Nat) (hf : f ≠ 0) (s : Session) (ro fl : Bool) :
    sqlFuel f s (startTxQuery ro fl) .qempty true false =
      if (connectIfNeeded s).transaction_writes = 0 then
        .ok (.rows [], { connectIfNeeded s with
          executed := (connectIfNeeded s).executed ++ [(startTxStr (ro || fl), none)] })
      else .error (.implicitCommit, connectIfNeeded s) := by
  cases h : (ro || fl) with
  | true =>
    simp only [startTxQuery, startTxStr, h, if_true, reduceIte, ite_true]
    rw [sqlFuel_nonwrite f hf s _ .qempty (by decide)]
    rw [show subIfnull (pyStrip "START TRANSACTION READ ONLY") =
        "START TRANSACTION READ ONLY" from by decide]
    rw [icc_ddl _ _ (by decide) (by decide)]
    by_cases h0 : (connectIfNeeded s).transaction_writes = 0
    · simp [h0, normValues,
        show is_query_type "START TRANSACTION READ ONLY" txEndTypes = false from by decide]
    · simp [h0, Nat.pos_of_ne_zero h0]
  | false =>
    simp only [startTxQuery, startTxStr, h, if_false, reduceIte, Bool.false_eq_true,
      ite_false]
    rw [sqlFuel_nonwrite f hf s _ .qempty (by decide)]
    rw [show subIfnull (pyStrip "START TRANSACTION ") =
        "START TRANSACTION" from by decide]
    rw [icc_ddl _ _ (by decide) (by decide)]
    by_cases h0 : (connectIfNeeded s).transaction_writes = 0
    · simp [h0, normValues,
        show is_query_type "START TRANSACTION" txEndTypes = false from by decide]
    · simp [h0, Nat.pos_of_ne_zero h0]

theorem enqueue_jobs_spec (s : Session) :
    enqueue_jobs_after_commit s =
      { s with jobs_fired := s.jobs_fired ++ s.enqueue_after_commit,
               enqueue_after_commit := [] } := by
  obtain ⟨c, fr, tw, ac, vc, ro, bc, eaq, rl, ex, hc, no, em, jf⟩ := s
  cases eaq <;> simp [enqueue_jobs_after_commit]

/-- The session produced by a successful `commit` from state `s`. -/
def commitResultS (s : Session) : Session :=
  { s with
    transaction_writes := 0,
    hook_calls := s.hook_calls ++ s.before_commit,
    executed := s.executed ++ [("commit", none), (startTxStr s.flags_read_only, none)],
    rollback_observers := [],
    emitted := s.emitted ++ s.realtime_log,
    realtime_log := [],
    jobs_fired := s.jobs_fired ++ s.enqueue_after_commit,
    enqueue_after_commit := [] }

theorem commitFuel_spec (f : Nat) (hf1 : f ≠ 0) (hf2 : f - 1 ≠ 0) (s : Session)
    (hconn : s.conn = true) (hooks_ok : ∀ x ∈ s.before_commit, x.fails = false) :
    commitFuel f s = .ok (commitResultS s) := by
  cases f with
  | zero => exact absurd rfl hf1
  | succ f' =>
    unfold commitFuel
    simp only [runHooks_ok _ _ hooks_ok]
    rw [sql_commit_step f' (by omega)]
    simp only [connectIfNeeded, hconn, if_true, reduceIte]
    rw [sql_startTx f' (by omega)]
    simp only [connectIfNeeded, hconn, if_true, reduceIte]
    simp only [Bool.false_or]
    rw [enqueue_jobs_spec]
    simp [flush_realtime_log, commitResultS, List.append_assoc, hconn]

/-- A base session used by concrete witnesses: connected, inside a fresh
transaction, with every registry and log empty. -/
def baseSession : Session :=
  { conn := true, flags_read_only := false, transaction_writes := 0,
    auto_commit_on_many_writes := false, value_cache := [], rollback_observers := [],
    before_commit := [], enqueue_after_commit := [], realtime_log := [],
    executed := [], hook_calls := [], notified := [], emitted := [], jobs_fired := [] }

theorem sqlFuel_icc_err (f : Nat) (hf : f ≠ 0) (s : Session) (q : String)
    (v : QueryValues) (ac : Bool)
    (hic : implicitCommitCond (connectIfNeeded s) (subIfnull (pyStrip q)) = true) :
    sqlFuel f s q v true ac = .error (.implicitCommit, connectIfNeeded s) := by
  cases f with
  | zero => exact absurd rfl hf
  | succ f' =>
    unfold sqlFuel
    rw [if_neg (by decide : ¬(true = false))]
    have hcts : check_transaction_status (connectIfNeeded s) (subIfnull (pyStrip q)) =
        .implicitCommitErr (connectIfNeeded s) := by
      unfold check_transaction_status check_implicit_commit
      simp [hic]
    rw [hcts]

/-- C10: for every query and values, calling `sql` with `run=False` returns
the query text as a string and changes nothing else: no connection is
opened, nothing is executed on the backend, and the write counter, cache,
and all other session state are left unchanged (the resulting session is
exactly the input session). -/
theorem sql_no_run_pure (s : Session) (q : String) (v : QueryValues) (ac : Bool) :
    sql s q v false ac = .ok (.text q, s) := rfl

/-- C2: a statement classified as `start`/`alter`/`drop`/`create`/`begin`/
`truncate` issued while the write counter is nonzero raises
`ImplicitCommitError`; the statement is not executed and the session state
is returned unchanged — the write counter keeps its value and nothing is
rolled back (the `executed` log gains no entry at all). -/
theorem implicit_commit_guard (s : Session) (q : String) (v : QueryValues) (ac : Bool)
    (hconn : s.conn = true)
    (hw : s.transaction_writes ≠ 0)
    (hddl : is_query_type (subIfnull (pyStrip q)) ddlTypes = true)
    (hne : (subIfnull (pyStrip q)).isEmpty = false) :
    sql s q v true ac = .error (.implicitCommit, s) := by
  unfold sql
  rw [sqlFuel_icc_err 8 (by omega) s q v ac]
  · rw [connectIfNeeded_eq s hconn]
  · rw [connectIfNeeded_eq s hconn, icc_ddl _ _ hne hddl]
    simp [hw]

/-- Witness for C2: a `create table` arriving with one pending write is
rejected with the session unchanged. -/
theorem implicit_commit_guard_witness :
    sql { baseSession with transaction_writes := 1 } "create table tabZ (a int)" .qempty
        true false =
      .error (.implicitCommit, { baseSession with transaction_writes := 1 }) :=
  implicit_commit_guard _ _ _ _ rfl (by decide) (by decide) (by decide)

/-- Counterexample to C1: with the counter at the ceiling and
`auto_commit_on_many_writes` disabled, one more `update` raises
`TooManyWritesError`, but the tracker does not roll back first: the state
at the raise has an unchanged `executed` log (no `rollback` statement was
issued — in fact nothing at all was issued) and the write counter is
incremented, not reset.  The claim's "the tracker rolls back the
whole transaction before raising" is false on the code; only the error
message text says so. -/
theorem too_many_writes_no_rollback_cex :
    sql { baseSession with transaction_writes := 200000 }
        "update tabAccount set docstatus = 2" .qempty true false =
      .error (.tooManyWrites, { baseSession with transaction_writes := 200001 }) := by
  decide

/-- C1 (amended): when a write statement pushes the counter over
`MAX_WRITES_PER_TRANSACTION`, then (a) with `auto_commit_on_many_writes`
disabled, `TooManyWritesError` is raised with the session state exactly as
it was plus the incremented counter — no rollback is issued and the pending
writes remain pending (the caller is merely told they were reverted); and
(b) with the flag enabled, `commit()` is invoked immediately on the pending
writes and the triggering statement is then executed. -/
theorem sql_write_ceiling (s : Session) (q : String) (v : QueryValues)
    (hconn : s.conn = true)
    (hddl : is_query_type (subIfnull (pyStrip q)) ddlTypes = false)
    (htx : is_query_type (subIfnull (pyStrip q)) txEndTypes = false)
    (hw : isWriteQuery (subIfnull (pyStrip q)) = true)
    (hceil : MAX_WRITES_PER_TRANSACTION ≤ s.transaction_writes) :
    (s.auto_commit_on_many_writes = false →
      sql s q v true false =
        .error (.tooManyWrites, { s with transaction_writes := s.transaction_writes + 1 }))
    ∧ (s.auto_commit_on_many_writes = true →
      sql s q v true false =
        match commit { s with transaction_writes := s.transaction_writes + 1 } with
        | .error e => .error e
        | .ok s3 => .ok (.rows [],
            { s3 with executed := s3.executed ++ [(subIfnull (pyStrip q), normValues v)] })) := by
  unfold sql
  rw [sqlFuel_write 8 (by omega) s q v hddl htx hw]
  rw [connectIfNeeded_eq s hconn]
  rw [if_pos (show MAX_WRITES_PER_TRANSACTION < s.transaction_writes + 1 by omega)]
  constructor
  · intro hac
    rw [if_neg (by simp [hac])]
  · intro hac
    rw [if_pos hac]
    rfl

/-- Witness for C1 (amended): both ceiling behaviours at the concrete
boundary state. -/
theorem sql_write_ceiling_witness :
    (sql { baseSession with transaction_writes := 200000 } "delete from tabOld" .qempty
        true false =
      .error (.tooManyWrites, { baseSession with transaction_writes := 200001 }))
    ∧ (sql { baseSession with
          transaction_writes := 200000, auto_commit_on_many_writes := true }
        "delete from tabOld" .qempty true false =
      .ok (.rows [], { baseSession with
        auto_commit_on_many_writes := true,
        executed := [("commit", none), ("START TRANSACTION", none),
          ("delete from tabOld", none)] })) := by
  constructor
  · exact (sql_write_ceiling _ _ _ rfl (by decide) (by decide) (by decide)
      (by decide)).1 rfl
  · rw [(sql_write_ceiling _ _ _ rfl (by decide) (by decide) (by decide)
      (by decide)).2 rfl]
    decide

/-- C3: `commit()` runs every registered hook in registration order
(appended to the `hook_calls` log), issues the physical `commit` and then
immediately a `START TRANSACTION`, resets the write counter to zero,
empties the rollback-observer set, and fires each deferred post-commit job
exactly once (appended once to `jobs_fired`), clearing the deferred queue. -/
theorem commit_sequence (s : Session) (hconn : s.conn = true)
    (hooks_ok : ∀ x ∈ s.before_commit, x.fails = false) :
    commit s = .ok { s with
      transaction_writes := 0,
      hook_calls := s.hook_calls ++ s.before_commit,
      executed := s.executed ++ [("commit", none), (startTxStr s.flags_read_only, none)],
      rollback_observers := [],
      emitted := s.emitted ++ s.realtime_log,
      realtime_log := [],
      jobs_fired := s.jobs_fired ++ s.enqueue_after_commit,
      enqueue_after_commit := [] } :=
  commitFuel_spec 7 (by omega) (by omega) s hconn hooks_ok

/-- Witness for C3: a commit with two hooks, one observer, one queued job
and one realtime entry. -/
theorem commit_sequence_witness :
    commit { baseSession with
        transaction_writes := 9,
        before_commit := [⟨1, false⟩, ⟨2, false⟩],
        rollback_observers := [⟨3, true⟩],
        enqueue_after_commit := [4],
        realtime_log := [5] } =
      .ok { baseSession with
        before_commit := [⟨1, false⟩, ⟨2, false⟩],
        hook_calls := [⟨1, false⟩, ⟨2, false⟩],
        executed := [("commit", none), ("START TRANSACTION", none)],
        emitted := [5],
        jobs_fired := [4] } := by
  rw [commit_sequence _ rfl (by decide)]
  decide

theorem runHooks_fail_of_split (s : Session) (l pre : List Hook) (hk : Hook)
    (rest : List Hook) (hsplit : l = pre ++ hk :: rest)
    (hpre : ∀ x ∈ pre, x.fails = false) (hfail : hk.fails = true) :
    runHooks s l =
      .error (.hookFailed hk.id, { s with hook_calls := s.hook_calls ++ pre ++ [hk] }) := by
  subst hsplit
  exact runHooks_fail pre s hk rest hpre hfail

theorem commitFuel_hook_fail (f : Nat) (s : Session) (pre : List Hook) (hk : Hook)
    (rest : List Hook) (hsplit : s.before_commit = pre ++ hk :: rest)
    (hpre : ∀ x ∈ pre, x.fails = false) (hfail : hk.fails = true) :
    commitFuel (f + 1) s =
      .error (.hookFailed hk.id, { s with hook_calls := s.hook_calls ++ pre ++ [hk] }) := by
  unfold commitFuel
  rw [runHooks_fail_of_split s s.before_commit pre hk rest hsplit hpre hfail]

/-- The session reached after one successful `commit` from `baseSession`
with a single registered hook. -/
def c4AfterFirstCommit : Session :=
  { baseSession with
    before_commit := [⟨1, false⟩], hook_calls := [⟨1, false⟩],
    executed := [("commit", none), ("START TRANSACTION", none)] }

/-- Counterexample to C4: after a successful drain the commit-hook registry
is *not* empty — the hook is still registered, and a second `commit`
invokes the same hook again (the `hook_calls` log receives it twice). -/
theorem commit_hooks_not_cleared_cex :
    (commit { baseSession with before_commit := [⟨1, false⟩] } = .ok c4AfterFirstCommit)
    ∧ c4AfterFirstCommit.before_commit = [⟨1, false⟩]
    ∧ ((commit c4AfterFirstCommit).map (fun s' => s'.hook_calls) =
        .ok [⟨1, false⟩, ⟨1, false⟩]) :=
  ⟨by decide, by decide, by decide⟩

/-- C4 (amended): `commit()` never clears `before_commit`: after a
successful drain the registry is unchanged (so the same hooks re-fire on
the next commit), and when a hook raises, the failure propagates, the
commit sequence is aborted before anything reaches the backend, and the
registry is still unchanged. -/
theorem commit_hook_registry_behavior (s : Session) (hconn : s.conn = true) :
    ((∀ x ∈ s.before_commit, x.fails = false) →
      ∃ s', commit s = .ok s' ∧ s'.before_commit = s.before_commit)
    ∧ (∀ pre hk rest, s.before_commit = pre ++ hk :: rest →
        (∀ x ∈ pre, x.fails = false) → hk.fails = true →
        commit s = .error (.hookFailed hk.id,
          { s with hook_calls := s.hook_calls ++ (pre ++ [hk]) })) := by
  constructor
  · intro hok
    exact ⟨_, commitFuel_spec 7 (by omega) (by omega) s hconn hok, rfl⟩
  · intro pre hk rest hsplit hpre hfail
    have h := commitFuel_hook_fail 6 s pre hk rest hsplit hpre hfail
    rw [show commit s = commitFuel (6 + 1) s from rfl, h]
    simp [List.append_assoc]

/-- Witness for C4 (amended): a succeeding hook stays registered after the
drain; a failing hook aborts the commit with nothing executed. -/
theorem commit_hook_registry_behavior_witness :
    ((commit { baseSession with before_commit := [⟨2, false⟩] }).map
        (fun s' => s'.before_commit) = .ok [⟨2, false⟩])
    ∧ commit { baseSession with before_commit := [⟨9, true⟩] } =
        .error (.hookFailed 9, { baseSession with
          before_commit := [⟨9, true⟩], hook_calls := [⟨9, true⟩] }) := by
  constructor
  · obtain ⟨s', hs, hb⟩ :=
      (commit_hook_registry_behavior { baseSession with before_commit := [⟨2, false⟩] }
        rfl).1 (by decide)
    rw [hs]
    simp [Except.map, hb]
  · exact (commit_hook_registry_behavior _ rfl).2 [] ⟨9, true⟩ [] rfl (by decide) rfl

theorem commitFuel_ok_writes (f : Nat) (s s' : Session)
    (h : commitFuel f s = .ok s') : s'.transaction_writes = 0 := by
  cases f with
  | zero => simp [commitFuel] at h
  | succ f' =>
    unfold commitFuel at h
    cases hrh : runHooks s s.before_commit with
    | error e => simp only [hrh] at h; exact Except.noConfusion h
    | ok s1 =>
      simp only [hrh] at h
      cases f' with
      | zero => simp [sqlFuel] at h
      | succ f'' =>
        simp only [sql_commit_step (f'' + 1) (Nat.succ_ne_zero f''),
          sql_startTx (f'' + 1) (Nat.succ_ne_zero f''), connectIfNeeded_writes,
          if_true, reduceIte, Except.ok.injEq] at h
        subst h
        rw [enqueue_jobs_spec]
        simp [flush_realtime_log, connectIfNeeded_writes]

/-- Helper: full `rollback(save_point=None)` from a connected session. -/
theorem rollback_full_spec (s : Session) (hconn : s.conn = true) :
    rollback s none = .ok { s with
      transaction_writes := 0,
      executed := s.executed ++ [("rollback", none), (startTxStr s.flags_read_only, none)],
      notified := s.notified ++
        (pyDedup s.rollback_observers).filter (fun o => o.has_on_rollback),
      rollback_observers := [] } := by
  have h1 : sql s "rollback" .qempty true false =
      .ok (.rows [], { s with
        transaction_writes := 0,
        executed := s.executed ++ [("rollback", none)] }) := by
    unfold sql
    rw [sql_rollback_step 8 (by omega), connectIfNeeded_eq s hconn]
  have h2 : beginTx { s with
      transaction_writes := 0,
      executed := s.executed ++ [("rollback", none)] } false =
      .ok { s with
        transaction_writes := 0,
        executed := s.executed ++
          [("rollback", none), (startTxStr s.flags_read_only, none)] } := by
    unfold beginTx sql
    rw [sql_startTx 8 (by omega)]
    rw [connectIfNeeded_eq { s with
      transaction_writes := 0,
      executed := s.executed ++ [("rollback", none)] } hconn]
    rw [if_pos (show ({ s with
      transaction_writes := 0,
      executed := s.executed ++ [("rollback", none)] } : Session).transaction_writes = 0
      from rfl)]
    simp [Except.map, List.append_assoc, Bool.false_or]
  unfold rollback
  rw [if_neg (by simp [optStrTruthy])]
  simp only [h1, h2]

/-- Helper: `rollback(save_point=name)` with a truthy name whose statement
text classifies as a `rollback` (true of every identifier-like name). -/
theorem rollback_sp_spec (s : Session) (hconn : s.conn = true) (t : String)
    (htr : optStrTruthy (some t) = true)
    (hwq : isWriteQuery (subIfnull (pyStrip ("rollback to savepoint " ++ t))) = false)
    (hddl : is_query_type (subIfnull (pyStrip ("rollback to savepoint " ++ t))) ddlTypes = false)
    (htx : is_query_type (subIfnull (pyStrip ("rollback to savepoint " ++ t))) txEndTypes = true)
    (hne : (subIfnull (pyStrip ("rollback to savepoint " ++ t))).isEmpty = false) :
    rollback s (some t) = .ok { s with
      transaction_writes := 0,
      executed := s.executed ++
        [(subIfnull (pyStrip ("rollback to savepoint " ++ t)), none)] } := by
  unfold rollback
  rw [if_pos htr]
  unfold sql
  simp only [Option.getD]
  rw [sqlFuel_nonwrite 8 (by omega) _ _ _ hwq, connectIfNeeded_eq s hconn]
  rw [icc_no_ddl _ _ hddl]
  simp [Except.map, hne, htx, normValues]

theorem connectIfNeeded_conn (s : Session) : (connectIfNeeded s).conn = true := by
  unfold connectIfNeeded connectS
  split <;> simp_all

/-- Helper: full `rollback(save_point=None)` from an arbitrary session
(connecting first if needed, which resets the observer list). -/
theorem rollback_full_spec_gen (s : Session) :
    rollback s none = .ok { connectIfNeeded s with
      transaction_writes := 0,
      executed := (connectIfNeeded s).executed ++
        [("rollback", none), (startTxStr (connectIfNeeded s).flags_read_only, none)],
      notified := (connectIfNeeded s).notified ++
        (pyDedup (connectIfNeeded s).rollback_observers).filter
          (fun o => o.has_on_rollback),
      rollback_observers := [] } := by
  have h1 : sql s "rollback" .qempty true false =
      .ok (.rows [], { connectIfNeeded s with
        transaction_writes := 0,
        executed := (connectIfNeeded s).executed ++ [("rollback", none)] }) := by
    unfold sql
    rw [sql_rollback_step 8 (by omega)]
  have h2 : beginTx { connectIfNeeded s with
      transaction_writes := 0,
      executed := (connectIfNeeded s).executed ++ [("rollback", none)] } false =
      .ok { connectIfNeeded s with
        transaction_writes := 0,
        executed := (connectIfNeeded s).executed ++
          [("rollback", none), (startTxStr (connectIfNeeded s).flags_read_only, none)] } := by
    unfold beginTx sql
    rw [sql_startTx 8 (by omega)]
    rw [connectIfNeeded_eq { connectIfNeeded s with
      transaction_writes := 0,
      executed := (connectIfNeeded s).executed ++ [("rollback", none)] }
      (connectIfNeeded_conn s)]
    rw [if_pos (show ({ connectIfNeeded s with
      transaction_writes := 0,
      executed := (connectIfNeeded s).executed ++ [("rollback", none)] } :
        Session).transaction_writes = 0 from rfl)]
    simp [Except.map, List.append_assoc, Bool.false_or]
  unfold rollback
  rw [if_neg (by simp [optStrTruthy])]
  simp only [h1, h2]

/-- C8: `rollback` with a savepoint name undoes only that nested scope: one
`rollback to savepoint` statement is issued, no observer is notified
(`notified` unchanged), the observer set is unchanged and no new
transaction is begun; `rollback` with no savepoint rolls the whole
transaction back, begins a new transaction, notifies each distinct
registered observer exposing `on_rollback`, and clears the observer set.
The savepoint conjunct carries the side conditions saying the statement
text classifies as a `rollback` statement, which hold for every
identifier-like savepoint name (checked by evaluation in the witness). -/
theorem rollback_savepoint_vs_full (s : Session) (hconn : s.conn = true) :
    (∀ t : String, optStrTruthy (some t) = true →
      isWriteQuery (subIfnull (pyStrip ("rollback to savepoint " ++ t))) = false →
      is_query_type (subIfnull (pyStrip ("rollback to savepoint " ++ t))) ddlTypes = false →
      is_query_type (subIfnull (pyStrip ("rollback to savepoint " ++ t))) txEndTypes = true →
      (subIfnull (pyStrip ("rollback to savepoint " ++ t))).isEmpty = false →
      rollback s (some t) = .ok { s with
        transaction_writes := 0,
        executed := s.executed ++
          [(subIfnull (pyStrip ("rollback to savepoint " ++ t)), none)] })
    ∧ rollback s none = .ok { s with
        transaction_writes := 0,
        executed := s.executed ++
          [("rollback", none), (startTxStr s.flags_read_only, none)],
        notified := s.notified ++
          (pyDedup s.rollback_observers).filter (fun o => o.has_on_rollback),
        rollback_observers := [] } :=
  ⟨fun t htr hwq hddl htx hne => rollback_sp_spec s hconn t htr hwq hddl htx hne,
   rollback_full_spec s hconn⟩

/-- Witness for C8: a savepoint rollback leaves the two registered
observers untouched and notifies nobody; a full rollback notifies the
deduplicated observers that expose `on_rollback` and clears the set. -/
theorem rollback_savepoint_vs_full_witness :
    (rollback { baseSession with
        transaction_writes := 3,
        rollback_observers := [⟨1, true⟩, ⟨2, false⟩] } (some "abcde") =
      .ok { baseSession with
        rollback_observers := [⟨1, true⟩, ⟨2, false⟩],
        executed := [("rollback to savepoint abcde", none)] })
    ∧ (rollback { baseSession with
        transaction_writes := 3,
        rollback_observers := [⟨1, true⟩, ⟨2, false⟩, ⟨1, true⟩] } none =
      .ok { baseSession with
        executed := [("rollback", none), ("START TRANSACTION", none)],
        notified := [⟨1, true⟩] }) := by
  constructor
  · rw [(rollback_savepoint_vs_full _ rfl).1 "abcde" (by decide) (by decide) (by decide)
      (by decide) (by decide)]
    decide
  · rw [(rollback_savepoint_vs_full _ rfl).2]
    decide

/-- C5: the transaction write counter equals zero after every successful
transaction boundary: after `begin`, after `commit`, and after `rollback`
(with or without a savepoint; the savepoint case carries the side condition
that the generated statement classifies as a `rollback` statement, true of
every identifier-like name). -/
theorem counter_zero_after_boundaries :
    (∀ (s : Session) (ro : Bool) (s' : Session),
      beginTx s ro = .ok s' → s'.transaction_writes = 0)
    ∧ (∀ (s s' : Session), commit s = .ok s' → s'.transaction_writes = 0)
    ∧ (∀ (s : Session) (sp : Option String) (s' : Session),
        (∀ t, sp = some t → optStrTruthy (some t) = true →
          isWriteQuery (subIfnull (pyStrip ("rollback to savepoint " ++ t))) = false ∧
          is_query_type (subIfnull (pyStrip ("rollback to savepoint " ++ t)))
            txEndTypes = true ∧
          (subIfnull (pyStrip ("rollback to savepoint " ++ t))).isEmpty = false) →
        rollback s sp = .ok s' → s'.transaction_writes = 0) := by
  refine ⟨?_, ?_, ?_⟩
  · intro s ro s' h
    unfold beginTx sql at h
    rw [sql_startTx 8 (by omega)] at h
    by_cases h0 : (connectIfNeeded s).transaction_writes = 0
    · rw [if_pos h0] at h
      simp only [Except.map, Except.ok.injEq] at h
      subst h
      simpa [connectIfNeeded_writes] using h0
    · rw [if_neg h0] at h
      simp [Except.map] at h
  · intro s s' h
    exact commitFuel_ok_writes 7 s s' h
  · intro s sp s' hcls h
    by_cases htr : optStrTruthy sp = true
    · cases sp with
      | none => simp [optStrTruthy] at htr
      | some t =>
        obtain ⟨hwq, htx, hne⟩ := hcls t rfl htr
        unfold rollback at h
        rw [if_pos htr] at h
        unfold sql at h
        simp only [Option.getD_some] at h
        rw [sqlFuel_nonwrite 8 (by omega) s _ .qempty hwq] at h
        by_cases hic : implicitCommitCond (connectIfNeeded s)
            (subIfnull (pyStrip ("rollback to savepoint " ++ t)))
        · rw [if_pos hic] at h
          simp [Except.map] at h
        · rw [if_neg hic] at h
          simp only [Except.map, Except.ok.injEq] at h
          subst h
          simp [hne, htx]
    · have hnone : rollback s sp = rollback s none := by
        unfold rollback
        rw [if_neg htr, if_neg (by simp [optStrTruthy])]
      rw [hnone, rollback_full_spec_gen s] at h
      simp only [Except.ok.injEq] at h
      subst h
      rfl

/-- Witness for C5: the three boundaries at concrete sessions with pending
writes. -/
theorem counter_zero_after_boundaries_witness :
    ({ baseSession with
        executed := [("START TRANSACTION", none)] } : Session).transaction_writes = 0
    ∧ ({ baseSession with
        executed := [("commit", none), ("START TRANSACTION", none)] } :
          Session).transaction_writes = 0
    ∧ ({ baseSession with
        executed := [("rollback to savepoint sp1", none)] } :
          Session).transaction_writes = 0 := by
  refine ⟨?_, ?_, ?_⟩
  · exact counter_zero_after_boundaries.1 baseSession false _ (by decide)
  · exact counter_zero_after_boundaries.2.1 baseSession _ (by decide)
  · exact counter_zero_after_boundaries.2.2 { baseSession with transaction_writes := 0 }
      (some "sp1") _ (by intro t ht htr; cases ht; exact ⟨by decide, by decide, by decide⟩)
      (by decide)

/-- C7: in a batch primary-key fetch, null/empty entries are dropped from
the name set before the query is built — the single engine request carries
exactly the surviving names as its filters — and when no name survives the
call short-circuits to the empty result `{}` with no engine request at
all. -/
theorem many_names_drop_empty (engine : EngineQuery → Except LookupErr LookupOut)
    (doctype : String) (names : List (Option String)) (field : FieldSpec)
    (order_by : Option String) (run pluck distinct : Bool) (limit : Option Nat)
    (as_dict : Bool) :
    (names.filter optStrTruthy = [] →
      _get_value_for_many_names engine doctype names field order_by run pluck distinct
        limit as_dict = (.ok .emptyDict, []))
    ∧ (names.filter optStrTruthy ≠ [] →
      _get_value_for_many_names engine doctype names field order_by run pluck distinct
          limit as_dict =
        (engine (manyNamesQuery doctype (names.filter optStrTruthy) field order_by run
            pluck distinct limit as_dict),
         [manyNamesQuery doctype (names.filter optStrTruthy) field order_by run pluck
            distinct limit as_dict])
      ∧ (manyNamesQuery doctype (names.filter optStrTruthy) field order_by run pluck
          distinct limit as_dict).filters = .flist (names.filter optStrTruthy)) := by
  constructor
  · intro hempty
    unfold _get_value_for_many_names
    rw [if_pos (by simp [hempty])]
  · intro hne
    refine ⟨?_, rfl⟩
    unfold _get_value_for_many_names
    rw [if_neg (by simp [hne])]

/-- Witness for C7: dropping a null and an empty name, and the empty
short-circuit. -/
theorem many_names_drop_empty_witness :
    (_get_value_for_many_names (fun _ => .ok (.rows [])) "Account"
        [none, some ""] (.fstr "name") none true false false none false =
      (.ok .emptyDict, []))
    ∧ (_get_value_for_many_names (fun _ => .ok (.rows [])) "Account"
        [none, some "", some "ACC-1"] (.fstr "name") none true false false none false =
      (.ok (.rows []),
       [manyNamesQuery "Account" [some "ACC-1"] (.fstr "name") none true false false
          none false])) := by
  constructor
  · exact (many_names_drop_empty _ _ _ _ _ _ _ _ _ _).1 (by decide)
  · have h := ((many_names_drop_empty (fun _ => .ok (.rows [])) "Account"
      [none, some "", some "ACC-1"] (.fstr "name") none true false false none
      false).2 (by decide)).1
    rw [h]
    decide

/-- C6: the point-lookup cache contract of `get_values`.  (1) On a hit —
`cache=true`, string filter, key present — the stored result is returned
with the session unchanged and no engine request issued.  (2) On a miss
with `cache=true` and a string filter, the call behaves exactly like the
uncached call and additionally stores the result under
`(doctype, filter-string, fieldname)` before returning.  (3) The cache is
consulted only when the filter is a plain string and the cache flag is
passed: in every other configuration the result is independent of the
cache contents and the cache is left untouched. -/
theorem value_cache_contract
    (engine : EngineQuery → Except LookupErr LookupOut) (s : Session)
    (doctype f : String) (fieldname : FieldSpec) (v : LookupOut)
    (ignore as_dict : Bool) (order_by : Option String) (update : Option Nat)
    (for_update run pluck distinct : Bool) (limit : Option Nat) :
    (s.value_cache.lookup (doctype, f, fieldname) = some v →
      get_values engine s doctype (.fstr f) fieldname ignore as_dict order_by update
        true for_update run pluck distinct limit = .ok (v, s, []))
    ∧ (s.value_cache.lookup (doctype, f, fieldname) = none →
      get_values engine s doctype (.fstr f) fieldname ignore as_dict order_by update
        true for_update run pluck distinct limit =
      Except.map (fun r => (r.1,
          { r.2.1 with
            value_cache := cacheStore r.2.1.value_cache (doctype, f, fieldname) r.1 },
          r.2.2))
        (get_values engine s doctype (.fstr f) fieldname ignore as_dict order_by update
          false for_update run pluck distinct limit))
    ∧ (∀ (filters : Filters) (cache : Bool),
        (cache = false ∨ ∀ g, filters ≠ Filters.fstr g) →
        ∀ c', get_values engine { s with value_cache := c' } doctype filters fieldname
            ignore as_dict order_by update cache for_update run pluck distinct limit =
          Except.map (fun r => (r.1, { r.2.1 with value_cache := c' }, r.2.2))
            (get_values engine s doctype filters fieldname ignore as_dict order_by
              update cache for_update run pluck distinct limit)) := by
  refine ⟨?_, ?_, ?_⟩
  · intro hv
    unfold get_values
    simp [hv]
  · intro hm
    unfold get_values _get_values_from_table
    simp only [hm, if_true, if_false, reduceIte]
    cases hres : engine (tableQuery doctype (Filters.fstr f) (gvFields fieldname)
        (gvOrderBy2 (gvOrderBy distinct order_by)) for_update distinct limit as_dict
        run pluck update) with
    | ok out => simp [hres, storeCache, Except.map]
    | error e =>
      by_cases hig : (ignore && (e == LookupErr.missingColumn ||
          e == LookupErr.missingTable)) = true
      · simp [hres, hig, storeCache, Except.map]
      · simp [hres, hig, Except.map]
  · intro filters cache hnc c'
    cases filters with
    | fstr g =>
      have hc : cache = false := by
        rcases hnc with h | h
        · exact h
        · exact absurd rfl (h g)
      subst hc
      unfold get_values _get_values_from_table
      simp only [Bool.false_eq_true, if_false, reduceIte]
      cases hres : engine (tableQuery doctype (Filters.fstr g) (gvFields fieldname)
          (gvOrderBy2 (gvOrderBy distinct order_by)) for_update distinct limit as_dict
          run pluck update) with
      | ok out => simp [hres, storeCache, Except.map]
      | error e =>
        by_cases hig : (ignore && (e == LookupErr.missingColumn ||
            e == LookupErr.missingTable)) = true
        · simp [hres, hig, storeCache, Except.map]
        · simp [hres, hig, Except.map]
    | fnone =>
      unfold get_values _get_values_from_table
      cases hres : engine (tableQuery doctype Filters.fnone (gvFields fieldname)
          (gvOrderBy2 (gvOrderBy distinct order_by)) for_update distinct limit as_dict
          run pluck update) with
      | ok out => simp [hres, storeCache, Except.map]
      | error e =>
        by_cases hig : (ignore && (e == LookupErr.missingColumn ||
            e == LookupErr.missingTable)) = true
        · simp [hres, hig, storeCache, Except.map]
        · simp [hres, hig, Except.map]
    | fmap m =>
      unfold get_values _get_values_from_table
      cases hres : engine (tableQuery doctype (Filters.fmap m) (gvFields fieldname)
          (gvOrderBy2 (gvOrderBy distinct order_by)) for_update distinct limit as_dict
          run pluck update) with
      | ok out => simp [hres, storeCache, Except.map]
      | error e =>
        by_cases hig : (ignore && (e == LookupErr.missingColumn ||
            e == LookupErr.missingTable)) = true
        · simp [hres, hig, storeCache, Except.map]
        · simp [hres, hig, Except.map]
    | flist names =>
      unfold get_values _get_value_for_many_names
      by_cases hemp : (names.filter optStrTruthy).isEmpty = true
      · simp [hemp, storeCache, Except.map]
      · simp only [hemp, Bool.false_eq_true, if_false, reduceIte]
        cases hres : engine (manyNamesQuery doctype (names.filter optStrTruthy)
            fieldname (gvOrderBy distinct order_by) run pluck distinct limit as_dict) with
        | ok out => simp [hres, storeCache, Except.map]
        | error e => simp [hres, Except.map]

/-- Witness for C6: a cache hit returns the stored row without any engine
request; a miss executes one engine request and stores its result under the
key; a list-filter lookup ignores arbitrary cache contents. -/
theorem value_cache_contract_witness :
    (get_values (fun _ => .ok (.rows [[.vint 7]]))
        { baseSession with
          value_cache := [(("User", "joe", .fstr "name"), .rows [[.vint 42]])] }
        "User" (.fstr "joe") (.fstr "name") false false none none true false true
        false false (some 1) =
      .ok (.rows [[.vint 42]],
        { baseSession with
          value_cache := [(("User", "joe", .fstr "name"), .rows [[.vint 42]])] }, []))
    ∧ (get_values (fun _ => .ok (.rows [[.vint 7]])) baseSession "User" (.fstr "joe")
        (.fstr "name") false false none none true false true false false (some 1) =
      .ok (.rows [[.vint 7]],
        { baseSession with
          value_cache := [(("User", "joe", .fstr "name"), .rows [[.vint 7]])] },
        [tableQuery "User" (.fstr "joe") (.flist ["name"]) none false false (some 1)
          false true false none]))
    ∧ (get_values (fun _ => .ok (.rows [[.vint 7]]))
        { baseSession with value_cache := [(("T", "x", .fstr "y"), .lnone)] }
        "User" (.flist [some "a"]) (.fstr "name") false false none none true false
        true false false (some 1) =
      .ok (.rows [[.vint 7]],
        { baseSession with value_cache := [(("T", "x", .fstr "y"), .lnone)] },
        [manyNamesQuery "User" [some "a"] (.fstr "name") none true false false
          (some 1) false])) := by
  refine ⟨?_, ?_, ?_⟩
  · exact (value_cache_contract _ _ "User" "joe" (.fstr "name") (.rows [[.vint 42]])
      false false none none false true false false (some 1)).1 rfl
  · rw [(value_cache_contract (fun _ => .ok (.rows [[.vint 7]])) baseSession "User"
      "joe" (.fstr "name") (.rows [[.vint 42]]) false false none none false true
      false false (some 1)).2.1 rfl]
    decide
  · rw [(value_cache_contract (fun _ => .ok (.rows [[.vint 7]])) baseSession "User"
      "joe" (.fstr "name") (.rows [[.vint 42]]) false false none none false true
      false false (some 1)).2.2 (.flist [some "a"]) true
      (Or.inr (fun g hg => by cases hg)) [(("T", "x", .fstr "y"), .lnone)]]
    decide

/-- C9: the single-row contract of `get_value` (which queries with
`limit=1`): a falsy result (zero rows, or the absence signal) yields
`None` rather than an error; one row with exactly one column and no
container requested unwraps to the bare scalar; a multi-column row, or an
explicit `as_dict` request, is returned as the row container. -/
theorem get_value_shaping
    (engine : EngineQuery → Except LookupErr LookupOut) (s : Session)
    (doctype : String) (filters : Filters) (fieldname : FieldSpec)
    (ignore as_dict : Bool) (order_by : Option String)
    (cache for_update pluck distinct : Bool)
    (out : LookupOut) (s2 : Session) (calls : List EngineQuery)
    (h : get_values engine s doctype filters fieldname ignore as_dict order_by none
        cache for_update true pluck distinct (some 1) = .ok (out, s2, calls)) :
    (lookupFalsy out = true →
      get_value engine s doctype filters fieldname ignore as_dict order_by cache
        for_update true pluck distinct = .ok (.gnone, s2, calls))
    ∧ (∀ v rest, out = .rows ([v] :: rest) → as_dict = false →
      get_value engine s doctype filters fieldname ignore as_dict order_by cache
        for_update true pluck distinct = .ok (.gscalar v, s2, calls))
    ∧ (∀ row rest, out = .rows (row :: rest) → (1 < row.length ∨ as_dict = true) →
      get_value engine s doctype filters fieldname ignore as_dict order_by cache
        for_update true pluck distinct = .ok (.grow row, s2, calls)) := by
  refine ⟨?_, ?_, ?_⟩
  · intro hf
    unfold get_value
    simp only [h]
    simp [hf]
  · intro v rest hout had
    subst hout
    subst had
    unfold get_value
    simp only [h]
    simp [lookupFalsy]
  · intro row rest hout hcond
    subst hout
    unfold get_value
    simp only [h]
    rcases hcond with h1 | h1
    · simp [lookupFalsy, h1]
    · subst h1
      simp [lookupFalsy]

/-- Witness for C9: the three shapes at concrete engines returning zero
rows, one single-column row, and one two-column row. -/
theorem get_value_shaping_witness :
    (get_value (fun _ => .ok (.rows [])) baseSession "User" (.fstr "u") (.fstr "name")
        false false none false false true false false =
      .ok (.gnone, baseSession,
        [tableQuery "User" (.fstr "u") (.flist ["name"]) none false false (some 1)
          false true false none]))
    ∧ (get_value (fun _ => .ok (.rows [[.vint 7]])) baseSession "User" (.fstr "u")
        (.fstr "name") false false none false false true false false =
      .ok (.gscalar (.vint 7), baseSession,
        [tableQuery "User" (.fstr "u") (.flist ["name"]) none false false (some 1)
          false true false none]))
    ∧ (get_value (fun _ => .ok (.rows [[.vint 1, .vint 2]])) baseSession "User"
        (.fstr "u") (.fstr "name") false false none false false true false false =
      .ok (.grow [.vint 1, .vint 2], baseSession,
        [tableQuery "User" (.fstr "u") (.flist ["name"]) none false false (some 1)
          false true false none])) := by
  refine ⟨?_, ?_, ?_⟩
  · exact (get_value_shaping (fun _ => .ok (.rows [])) baseSession "User" (.fstr "u")
      (.fstr "name") false false none false false false false (.rows []) baseSession
      [tableQuery "User" (.fstr "u") (.flist ["name"]) none false false (some 1)
        false true false none] (by decide)).1 rfl
  · exact (get_value_shaping (fun _ => .ok (.rows [[.vint 7]])) baseSession "User"
      (.fstr "u") (.fstr "name") false false none false false false false
      (.rows [[.vint 7]]) baseSession
      [tableQuery "User" (.fstr "u") (.flist ["name"]) none false false (some 1)
        false true false none] (by decide)).2.1 (.vint 7) [] rfl rfl
  · exact (get_value_shaping (fun _ => .ok (.rows [[.vint 1, .vint 2]])) baseSession
      "User" (.fstr "u") (.fstr "name") false false none false false false false
      (.rows [[.vint 1, .vint 2]]) baseSession
      [tableQuery "User" (.fstr "u") (.flist ["name"]) none false false (some 1)
        false true false none] (by decide)).2.2 [.vint 1, .vint 2] [] rfl
      (Or.inl (by norm_num))
